import Mathlib

/-
Verification development for the ConvertAllHub batch-processing and
progress-tracking subsystem.

The definitions below are a shallow embedding of
  backend/services/progress_tracker.py  (ProgressTracker)
  backend/services/batch_processor.py   (BatchProcessor)
  backend/models/conversion_models.py   (ConversionResponse and friends)

Modelling conventions:
  * Python dicts used as registries (task_id -> task, batch_id -> batch,
    metadata maps) are association lists; assignment `d[k] = v` is `setK`
    (replace in place if the key exists, append otherwise, matching dict
    insertion-order semantics), lookup is `lookupK`.
  * `time.time()` values are passed in as an explicit `now : Nat` argument.
  * Raising an exception is modelled with `Except`: the raising operation
    returns `.error msg` and, since the raise aborts the function before
    any mutation, the state component is returned unchanged.
  * Python `int((a / b) * 100)` (float division then truncation toward
    zero) is modelled exactly over the integers as `Int.tdiv (a * 100) b`,
    which agrees with the float computation at the magnitudes exercised in
    the claims. Python would raise ZeroDivisionError for b = 0; theorems
    that touch the division carry a positivity hypothesis for b.
  * SHA-256 content hashes are opaque to every property considered here;
    the digest of a byte string is modelled by the byte string itself.
-/

namespace ConvertAllHub

/-- Association-list lookup, modelling Python `d[k]` / `k in d`. -/
def lookupK {κ α : Type} [DecidableEq κ] : List (κ × α) → κ → Option α
  | [], _ => none
  | (k, v) :: rest, key => if k = key then some v else lookupK rest key

/-- Association-list assignment, modelling Python `d[k] = v`: replaces the
value in place when the key is present, appends otherwise. -/
def setK {κ α : Type} [DecidableEq κ] : List (κ × α) → κ → α → List (κ × α)
  | [], key, v => [(key, v)]
  | (k, w) :: rest, key, v =>
      if k = key then (key, v) :: rest else (k, w) :: setK rest key v

/-- Python `base.update(upd)` on dicts: assign each pair of `upd` into `base`. -/
def dictUpdate (base : List (String × String)) : List (String × String) → List (String × String)
  | [] => base
  | (k, v) :: rest => dictUpdate (setK base k v) rest

/-! ## Progress tracker (backend/services/progress_tracker.py) -/

/-- The `TaskStatus` enum. -/
inductive TaskStatus : Type
  | queued
  | processing
  | completed
  | failed
  | cancelled
deriving DecidableEq, Repr, Inhabited

/-- One task record: the dict built by `ProgressTracker.create_task`.
`result_url` is a key added dynamically by `complete_task`; it is modelled
as an `Option` field that starts out `none`. -/
structure Task : Type where
  task_id : String
  task_type : String
  filename : String
  status : TaskStatus
  progress : Int
  total_steps : Int
  current_step : Int
  message : String
  created_at : Nat
  updated_at : Nat
  started_at : Option Nat
  completed_at : Option Nat
  metadata : List (String × String)
  error_message : Option String
  result_url : Option String
deriving DecidableEq, Repr, Inhabited

/-- The tracker registry `self._tasks : Dict[str, Dict[str, Any]]`. -/
abbrev TrackerState := List (String × Task)

/-- Python truthiness of an `Optional[str]`: `None` and `""` are falsy. -/
def strTruthy : Option String → Bool
  | some s => !(s = "")
  | none => false

/-- `ProgressTracker.create_task`: builds a fresh record with status
`queued`, stores it under `task_id` (overwriting any existing record), and
returns a copy of it. -/
def create_task (now : Nat) (task_id : String) (task_type : String) (filename : String)
    (total_steps : Int) (metadata : List (String × String)) (ts : TrackerState) :
    TrackerState × Task :=
  let t : Task :=
    { task_id := task_id
      task_type := task_type
      filename := filename
      status := TaskStatus.queued
      progress := 0
      total_steps := total_steps
      current_step := 0
      message := "Task queued"
      created_at := now
      updated_at := now
      started_at := none
      completed_at := none
      metadata := metadata
      error_message := none
      result_url := none }
  (setK ts task_id t, t)

/-- `ProgressTracker.update_progress`: returns false on an unknown id or a
terminal task; otherwise starts a queued task, clamps `current_step` from
above with `min`, recomputes `progress`, and applies the optional message
and metadata (both guarded by Python truthiness). -/
def update_progress (now : Nat) (task_id : String) (current_step : Int)
    (message : Option String) (metadata : List (String × String)) (ts : TrackerState) :
    TrackerState × Bool :=
  match lookupK ts task_id with
  | none => (ts, false)
  | some t =>
      if t.status = TaskStatus.completed ∨ t.status = TaskStatus.failed ∨
          t.status = TaskStatus.cancelled then
        (ts, false)
      else
        let t1 := if t.status = TaskStatus.queued then
            { t with status := TaskStatus.processing, started_at := some now }
          else t
        let cs := min current_step t1.total_steps
        let t2 := { t1 with
          current_step := cs
          progress := Int.tdiv (cs * 100) t1.total_steps
          updated_at := now }
        let t3 := match message with
          | some m => if m = "" then t2 else { t2 with message := m }
          | none => t2
        let t4 := if metadata.isEmpty then t3
          else { t3 with metadata := dictUpdate t3.metadata metadata }
        (setK ts task_id t4, true)

/-- `ProgressTracker.complete_task`: unconditionally marks an existing task
completed (status, progress 100, `current_step = total_steps`, timestamps),
records `result_url` when truthy, merges metadata. No terminal-state guard. -/
def complete_task (now : Nat) (task_id : String) (result_url : Option String)
    (metadata : List (String × String)) (ts : TrackerState) : TrackerState × Bool :=
  match lookupK ts task_id with
  | none => (ts, false)
  | some t =>
      let t1 := { t with
        status := TaskStatus.completed
        progress := 100
        current_step := t.total_steps
        message := "Task completed successfully"
        completed_at := some now
        updated_at := now }
      let t2 := match result_url with
        | some u => if u = "" then t1 else { t1 with result_url := some u }
        | none => t1
      let t3 := if metadata.isEmpty then t2
        else { t2 with metadata := dictUpdate t2.metadata metadata }
      (setK ts task_id t3, true)

/-- `ProgressTracker.fail_task`: unconditionally marks an existing task
failed and records the error message. No terminal-state guard. -/
def fail_task (now : Nat) (task_id : String) (error_message : String)
    (metadata : List (String × String)) (ts : TrackerState) : TrackerState × Bool :=
  match lookupK ts task_id with
  | none => (ts, false)
  | some t =>
      let t1 := { t with
        status := TaskStatus.failed
        message := "Task failed"
        error_message := some error_message
        completed_at := some now
        updated_at := now }
      let t2 := if metadata.isEmpty then t1
        else { t1 with metadata := dictUpdate t1.metadata metadata }
      (setK ts task_id t2, true)

/-- `ProgressTracker.cancel_task`: cancels an existing task unless its
status is already `completed` or `failed`; returns false otherwise or when
the id is unknown. -/
def cancel_task (now : Nat) (task_id : String) (ts : TrackerState) : TrackerState × Bool :=
  match lookupK ts task_id with
  | none => (ts, false)
  | some t =>
      if t.status = TaskStatus.completed ∨ t.status = TaskStatus.failed then
        (ts, false)
      else
        (setK ts task_id { t with
          status := TaskStatus.cancelled
          message := "Task cancelled"
          completed_at := some now
          updated_at := now }, true)

/-- `ProgressTracker.get_task_status`: a read-only snapshot. -/
def get_task_status (task_id : String) (ts : TrackerState) : Option Task :=
  lookupK ts task_id

/-! ## Conversion models (backend/models/conversion_models.py) -/

/-- The `ConversionStatus` enum. -/
inductive ConversionStatus : Type
  | success
  | error
  | processing
  | queued
deriving DecidableEq, Repr, Inhabited

/-- The `ConversionResponse` pydantic model (metadata values modelled as
strings; `processing_time` carried opaquely as an optional number). -/
structure ConversionResponse : Type where
  status : ConversionStatus
  result_url : Option String := none
  task_id : Option String := none
  metadata : List (String × String) := []
  error_message : Option String := none
  processing_time : Option Nat := none
deriving DecidableEq, Repr, Inhabited

/-- The `BatchConversionResponse` pydantic model. -/
structure BatchConversionResponse : Type where
  batch_id : String
  total_files : Nat
  completed : Nat
  failed : Nat
  results : List ConversionResponse
  zip_url : Option String := none
deriving DecidableEq, Repr, Inhabited

/-! ## Batch processor (backend/services/batch_processor.py) -/

/-- One uploaded file as the batch processor sees it: `file.filename`,
`file.content_type` and the bytes yielded by `await file.read()`. -/
structure UFile : Type where
  filename : String
  content : List Nat
  content_type : String
deriving DecidableEq, Repr, Inhabited

/-- `len(file_data)` for an uploaded file. -/
def fileSize (f : UFile) : Nat := f.content.length

/-- The per-file metadata dict stored by `create_batch`. The SHA-256 hex
digest is opaque to every claim; it is modelled by the raw byte content. -/
structure FileMeta : Type where
  filename : String
  size : Nat
  content_type : String
  hash : List Nat
deriving DecidableEq, Repr, Inhabited

/-- The batch record stored in `self.active_batches`. Status is the code's
string: "queued", "processing" or "completed". -/
structure BatchInfo : Type where
  id : String
  operation : String
  options : List (String × String)
  files : List FileMeta
  total_files : Nat
  completed : Nat
  failed : Nat
  results : List ConversionResponse
  status : String
  created_at : Nat
  total_size : Nat
deriving DecidableEq, Repr, Inhabited

/-- The registry `self.active_batches : Dict[str, Dict[str, Any]]`. -/
abbrev BatchState := List (String × BatchInfo)

/-- `BatchProcessor.create_batch`. The `batch_id` (a uuid4 in Python) is
passed in. Returns the raised error or the new batch id, together with the
registry (unchanged whenever the validation raises, because the raise
happens before the `self.active_batches[batch_id] = ...` assignment). -/
def create_batch (now : Nat) (batch_id : String) (files : List UFile)
    (operation : String) (options : List (String × String)) (st : BatchState) :
    Except String String × BatchState :=
  if files.length > 50 then
    (Except.error "Maximum 50 files allowed per batch", st)
  else
    let total_size := (files.map fileSize).sum
    let file_metadata := files.map (fun f =>
      ({ filename := f.filename
         size := fileSize f
         content_type := f.content_type
         hash := f.content } : FileMeta))
    if total_size > 500 * 1024 * 1024 then
      (Except.error "Total batch size exceeds 500MB limit", st)
    else
      (Except.ok batch_id,
        setK st batch_id
          { id := batch_id
            operation := operation
            options := options
            files := file_metadata
            total_files := files.length
            completed := 0
            failed := 0
            results := []
            status := "queued"
            created_at := now
            total_size := total_size })

/-- The outcome of one call to the external `processor_func` on one file:
either the `ConversionResponse` it returned, or the exception it raised
(captured as `str(e)`). -/
inductive Outcome : Type
  | ok (r : ConversionResponse)
  | exn (msg : String)
deriving DecidableEq, Repr, Inhabited

/-- Whether an outcome is a normal return (the branch that increments
`completed`; a raise increments `failed`). -/
def outcomeOk : Outcome → Bool
  | Outcome.ok _ => true
  | Outcome.exn _ => false

/-- The body of `process_single_file` in `process_batch`: a normal return
of the processor is passed through; an exception is synthesized into an
error `ConversionResponse` carrying `task_id = "{batch_id}_{index}"` and
the original filename in the metadata. -/
def processOne (batch_id : String) (index : Nat) (f : UFile) (o : Outcome) :
    ConversionResponse :=
  match o with
  | Outcome.ok r => r
  | Outcome.exn e =>
      { status := ConversionStatus.error
        task_id := some (batch_id ++ "_" ++ toString index)
        error_message := some e
        metadata := [("filename", f.filename)] }

/-- Python `enumerate`, starting from `k`. -/
def enumFrom {α : Type} : Nat → List α → List (Nat × α)
  | _, [] => []
  | k, a :: rest => (k, a) :: enumFrom (k + 1) rest

/-- The filter picking the results that go into the ZIP archive: the code
tests `r.status == ConversionStatus.SUCCESS and r.result_url`, i.e. status
`success` AND a truthy (non-empty, non-None) `result_url`. -/
def archivable (r : ConversionResponse) : Bool :=
  decide (r.status = ConversionStatus.success) && strTruthy r.result_url

/-- The first phase of `process_batch` (lines 70-74): look the batch up,
raising when it is unknown, and set its status to "processing". This is
the registry state observable (via `get_batch_status`) while the batch's
units are still running, before the final update. -/
def processBatchStart (batch_id : String) (st : BatchState) :
    Except String BatchState :=
  match lookupK st batch_id with
  | none => Except.error ("Batch " ++ batch_id ++ " not found")
  | some info => Except.ok (setK st batch_id { info with status := "processing" })

/-- The `processed_results` list assembled by `asyncio.gather`: one
response per file, in input order. -/
def processedResults (batch_id : String) (files : List (UFile × Outcome)) :
    List ConversionResponse :=
  (enumFrom 0 files).map (fun p => processOne batch_id p.1 p.2.1 p.2.2)

/-- The final value of the `completed` counter: one increment per unit
whose processor call returned normally. -/
def completedCount (files : List (UFile × Outcome)) : Nat :=
  (files.map Prod.snd).countP (fun o => outcomeOk o)

/-- The final value of the `failed` counter: one increment per unit whose
processor call raised. -/
def failedCount (files : List (UFile × Outcome)) : Nat :=
  (files.map Prod.snd).countP (fun o => !outcomeOk o)

/-- The `BatchConversionResponse` returned by `process_batch`: the ZIP
archive is built (and its storage URL returned) exactly when the
`successful_results` filter is non-empty. -/
def batchResponse (batch_id : String) (files : List (UFile × Outcome))
    (zipUploadUrl : String) : BatchConversionResponse :=
  { batch_id := batch_id
    total_files := files.length
    completed := completedCount files
    failed := failedCount files
    results := processedResults batch_id files
    zip_url := if ((processedResults batch_id files).filter archivable).isEmpty then none
      else some zipUploadUrl }

/-- `BatchProcessor.process_batch`, end to end. Each file is paired with
the outcome of its `processor_func` call. `zipUploadUrl` is the URL the
storage collaborator returns for the uploaded archive (`_create_batch_zip`
always returns that upload URL). In the model no unit ever leaks an
`Exception` past the per-unit try/except, so the post-gather
`isinstance(result, Exception)` loop passes every result through
unchanged. -/
def process_batch (batch_id : String) (files : List (UFile × Outcome))
    (zipUploadUrl : String) (st : BatchState) :
    Except String BatchConversionResponse × BatchState :=
  match processBatchStart batch_id st with
  | Except.error e => (Except.error e, st)
  | Except.ok st1 =>
      match lookupK st1 batch_id with
      | none => (Except.error ("Batch " ++ batch_id ++ " not found"), st1)
      | some info1 =>
          let st2 := setK st1 batch_id { info1 with
            results := processedResults batch_id files
            completed := completedCount files
            failed := failedCount files
            status := "completed" }
          (Except.ok (batchResponse batch_id files zipUploadUrl), st2)

/-- `BatchProcessor.get_batch_status`: a read-only lookup. -/
def get_batch_status (batch_id : String) (st : BatchState) : Option BatchInfo :=
  lookupK st batch_id

/-- `BatchProcessor.cleanup_old_batches`: deletes every record whose
`created_at` is older than the cutoff and returns how many were deleted. -/
def cleanup_old_batches (now : Nat) (max_age_hours : Nat) (st : BatchState) :
    BatchState × Nat :=
  let keep := fun (p : String × BatchInfo) =>
    !decide ((p.2.created_at : Int) < (now : Int) - (max_age_hours : Int) * 3600)
  (st.filter keep, st.length - (st.filter keep).length)

/-! ## Execution-order model

`process_batch` runs one unit per file under a semaphore; the units finish
in an arbitrary order.  A completion schedule is a permutation of the
enumerated file list.  Counter updates happen one per unit in schedule
order; each unit's result is keyed by its original index, which is how
`asyncio.gather` reassembles them positionally. -/

/-- The per-index results produced by the units when they settle in the
order of `sched`. -/
def runSchedule (batch_id : String) (sched : List (Nat × (UFile × Outcome))) :
    List (Nat × ConversionResponse) :=
  sched.map (fun p => (p.1, processOne batch_id p.1 p.2.1 p.2.2))

/-- The successive values of the `(completed, failed)` counter pair as the
outcomes settle one by one, starting from `(c, f)`. -/
def countersTrace (c f : Nat) : List Outcome → List (Nat × Nat)
  | [] => [(c, f)]
  | o :: rest =>
      (c, f) :: (if outcomeOk o then countersTrace (c + 1) f rest
                 else countersTrace c (f + 1) rest)

/-- The final value of the `(completed, failed)` counter pair after all
outcomes have settled, starting from `(c, f)`. -/
def countersFinal (c f : Nat) : List Outcome → Nat × Nat
  | [] => (c, f)
  | o :: rest =>
      if outcomeOk o then countersFinal (c + 1) f rest else countersFinal c (f + 1) rest

/-! ## Concrete runs used by the counterexamples and witnesses -/

/-- Tracker after `create_task("t1", ...)`: one queued task. -/
def exTrA : TrackerState := (create_task 0 "t1" "conversion" "a.pdf" 100 [] []).1

/-- Tracker after additionally cancelling `"t1"`: the task is cancelled. -/
def exTrB : TrackerState := (cancel_task 1 "t1" exTrA).1

/-- Tracker after additionally calling `complete_task("t1")` on the
already-cancelled task. -/
def exTrC : TrackerState := (complete_task 2 "t1" none [] exTrB).1

/-- The cancelled `"t1"` record of `exTrB`. -/
def exTaskCancelled : Task := (lookupK exTrB "t1").getD default

/-- Tracker with one queued task `"t5"` with `total_steps = 100`. -/
def exTrE : TrackerState := (create_task 0 "t5" "conversion" "a.pdf" 100 [] []).1

/-- The queued `"t5"` record of `exTrE`. -/
def exTaskQueued : Task := (lookupK exTrE "t5").getD default

/-- Tracker with one processing task `"t8"` (created, then one progress
update). -/
def exTrP : TrackerState :=
  (update_progress 1 "t8" 10 none [] (create_task 0 "t8" "conversion" "a.pdf" 100 [] []).1).1

/-- The processing `"t8"` record of `exTrP`. -/
def exTaskProcessing : Task := (lookupK exTrP "t8").getD default

/-- Tracker after additionally completing `"t8"`. -/
def exTrPDone : TrackerState := (complete_task 2 "t8" none [] exTrP).1

/-- The completed `"t8"` record of `exTrPDone`. -/
def exTaskDone : Task := (lookupK exTrPDone "t8").getD default

/-- A small uploaded file. -/
def exFileA : UFile := { filename := "a.txt", content := [1, 2], content_type := "text/plain" }

/-- Another small uploaded file. -/
def exFileB : UFile := { filename := "b.txt", content := [3], content_type := "text/plain" }

/-- A successful conversion response carrying a result URL. -/
def exRespOk : ConversionResponse :=
  { status := ConversionStatus.success, result_url := some "https://s/out1" }

/-- A successful conversion response with `result_url = None`, as e.g. the
PDF router returns when a conversion yields several output files
(backend/routers/pdf.py line 91). -/
def exRespOkNoUrl : ConversionResponse :=
  { status := ConversionStatus.success, result_url := none }

/-- Registry after `create_batch` of a two-file batch `"b1"`. -/
def exBatchSt : BatchState := (create_batch 0 "b1" [exFileA, exFileB] "convert" [] []).2

/-- The stored `"b1"` record of `exBatchSt`. -/
def exBatchInfo : BatchInfo := (lookupK exBatchSt "b1").getD default

/-- The outcomes of the two `"b1"` units: the first succeeds, the second
raises. -/
def exOutcomes : List (UFile × Outcome) :=
  [(exFileA, Outcome.ok exRespOk), (exFileB, Outcome.exn "boom")]

/-- Registry after additionally running `process_batch` on `"b1"`: the
batch is completed. -/
def exBatchDone : BatchState := (process_batch "b1" exOutcomes "https://s/zip1" exBatchSt).2

/-- The registry mid-way through a second `process_batch("b1", ...)` call,
right after it set the status back to "processing". -/
def exBatchRestarted : BatchState :=
  ((processBatchStart "b1" exBatchDone).toOption).getD []

/-- Registry after `create_batch` of a one-file batch `"b6"`. -/
def exBatchStC6 : BatchState := (create_batch 0 "b6" [exFileA] "convert" [] []).2

/-- The stored `"b6"` record of `exBatchStC6`. -/
def exBatchInfoC6 : BatchInfo := (lookupK exBatchStC6 "b6").getD default

/-- The outcome list of the `"b6"` run: one unit, returning success with no
result URL. -/
def exOutcomesC6 : List (UFile × Outcome) := [(exFileA, Outcome.ok exRespOkNoUrl)]

/-- The response of running `"b6"` on `exOutcomesC6`. -/
def exRespC6 : BatchConversionResponse :=
  ((process_batch "b6" exOutcomesC6 "https://s/zip6" exBatchStC6).1.toOption).getD default

/-- The registry after the `"b6"` run. -/
def exBatchStC6Done : BatchState :=
  (process_batch "b6" exOutcomesC6 "https://s/zip6" exBatchStC6).2

/-- Fifty-one copies of a small file: one more than the batch limit. -/
def exFiles51 : List UFile := List.replicate 51 exFileA

/-! ## Helper lemmas on the association-list registry model -/

theorem lookupK_setK_self {κ α : Type} [DecidableEq κ] (l : List (κ × α)) (key : κ) (v : α) :
    lookupK (setK l key v) key = some v := by
  induction l with
  | nil => simp [setK, lookupK]
  | cons h t ih =>
      obtain ⟨k, w⟩ := h
      by_cases hk : k = key
      · simp [setK, lookupK, hk]
      · simp [setK, lookupK, hk, ih]

theorem lookupK_setK_other {κ α : Type} [DecidableEq κ] (l : List (κ × α)) (key k' : κ) (v : α)
    (hne : key ≠ k') : lookupK (setK l key v) k' = lookupK l k' := by
  induction l with
  | nil => simp [setK, lookupK, hne]
  | cons h t ih =>
      obtain ⟨k, w⟩ := h
      by_cases hk : k = key
      · subst hk
        simp [setK, lookupK, hne]
      · simp [setK, lookupK, hk, ih]

theorem lookupK_none_of_not_mem_keys {κ α : Type} [DecidableEq κ]
    (l : List (κ × α)) (key : κ) (h : key ∉ l.map Prod.fst) : lookupK l key = none := by
  induction l with
  | nil => simp [lookupK]
  | cons p t ih =>
      obtain ⟨k, w⟩ := p
      simp only [List.map_cons, List.mem_cons, not_or] at h
      have hk : k ≠ key := fun hkk => h.1 hkk.symm
      simp [lookupK, hk, ih h.2]

theorem mem_of_lookupK_some {κ α : Type} [DecidableEq κ]
    {l : List (κ × α)} {key : κ} {v : α} (h : lookupK l key = some v) : (key, v) ∈ l := by
  induction l with
  | nil => simp [lookupK] at h
  | cons p t ih =>
      obtain ⟨k, w⟩ := p
      simp only [lookupK] at h
      split at h
      · next hk =>
          obtain rfl := Option.some.injEq .. ▸ h
          subst hk
          exact List.mem_cons_self _ _
      · exact List.mem_cons_of_mem _ (ih h)

theorem lookupK_eq_some_of_mem {κ α : Type} [DecidableEq κ]
    {l : List (κ × α)} {key : κ} {v : α} (hnd : (l.map Prod.fst).Nodup)
    (hmem : (key, v) ∈ l) : lookupK l key = some v := by
  induction l with
  | nil => simp at hmem
  | cons p t ih =>
      obtain ⟨k, w⟩ := p
      simp only [List.map_cons, List.nodup_cons] at hnd
      rcases List.mem_cons.mp hmem with hh | hh
      · injection hh with h1 h2
        subst h1
        subst h2
        simp [lookupK]
      · have hk : k ≠ key := by
          intro hkk
          subst hkk
          exact hnd.1 (List.mem_map.mpr ⟨(k, v), hh, rfl⟩)
        simp [lookupK, hk, ih hnd.2 hh]

theorem lookupK_perm {κ α : Type} [DecidableEq κ]
    {l₁ l₂ : List (κ × α)} (hp : l₁.Perm l₂) (hnd : (l₁.map Prod.fst).Nodup)
    (key : κ) : lookupK l₁ key = lookupK l₂ key := by
  have hnd₂ : (l₂.map Prod.fst).Nodup := ((hp.map Prod.fst).nodup_iff).mp hnd
  cases hv : lookupK l₁ key with
  | none =>
      have hkeys : key ∉ l₁.map Prod.fst := by
        intro hmem
        obtain ⟨⟨k, v⟩, hpmem, hfst⟩ := List.mem_map.mp hmem
        subst hfst
        rw [lookupK_eq_some_of_mem hnd hpmem] at hv
        exact Option.noConfusion hv
      have hkeys₂ : key ∉ l₂.map Prod.fst := fun hmem =>
        hkeys ((hp.map Prod.fst).mem_iff.mpr hmem)
      exact (lookupK_none_of_not_mem_keys _ _ hkeys₂).symm
  | some v =>
      exact (lookupK_eq_some_of_mem hnd₂ (hp.mem_iff.mp (mem_of_lookupK_some hv))).symm

theorem lookupK_filter {κ α : Type} [DecidableEq κ]
    (p : κ × α → Bool) (l : List (κ × α)) (key : κ) (hnd : (l.map Prod.fst).Nodup) :
    lookupK (l.filter p) key = none ∨ lookupK (l.filter p) key = lookupK l key := by
  induction l with
  | nil => left; simp [lookupK]
  | cons q t ih =>
      obtain ⟨k, w⟩ := q
      simp only [List.map_cons, List.nodup_cons] at hnd
      by_cases hk : k = key
      · subst hk
        by_cases hpq : p (k, w)
        · right
          simp [List.filter_cons, hpq, lookupK]
        · left
          have hnot : k ∉ (t.filter p).map Prod.fst := by
            intro hmem
            obtain ⟨⟨k', v'⟩, hpmem, hfst⟩ := List.mem_map.mp hmem
            exact hnd.1 (List.mem_map.mpr ⟨(k', v'), (List.filter_sublist t).mem hpmem, hfst⟩)
          simpa [List.filter_cons, hpq] using lookupK_none_of_not_mem_keys (t.filter p) k hnot
      · by_cases hpq : p (k, w)
        · rcases ih hnd.2 with hcase | hcase
          · left
            simpa [List.filter_cons, hpq, lookupK, hk] using hcase
          · right
            simpa [List.filter_cons, hpq, lookupK, hk] using hcase
        · rcases ih hnd.2 with hcase | hcase
          · left
            simpa [List.filter_cons, hpq] using hcase
          · right
            rw [lookupK]
            simpa [List.filter_cons, hpq, lookupK, hk] using hcase

/-! ## Helper lemmas on outcome counting and scheduling -/

theorem countP_ok_add_countP_not (l : List Outcome) :
    l.countP (fun o => outcomeOk o) + l.countP (fun o => !outcomeOk o) = l.length := by
  induction l with
  | nil => simp
  | cons o rest ih =>
      cases ho : outcomeOk o <;> simp [List.countP_cons, ho] <;> omega

theorem countersTrace_sum_le (l : List Outcome) :
    ∀ c f : Nat, ∀ p ∈ countersTrace c f l, p.1 + p.2 ≤ c + f + l.length := by
  induction l with
  | nil =>
      intro c f p hp
      simp [countersTrace] at hp
      simp [hp]
  | cons o rest ih =>
      intro c f p hp
      cases ho : outcomeOk o
      · simp only [countersTrace, ho, Bool.false_eq_true, if_false, List.mem_cons] at hp
        rcases hp with hp | hp
        · simp [hp]
        · have := ih c (f + 1) p hp
          simp only [List.length_cons]
          omega
      · simp only [countersTrace, ho, if_true, List.mem_cons] at hp
        rcases hp with hp | hp
        · simp [hp]
        · have := ih (c + 1) f p hp
          simp only [List.length_cons]
          omega

theorem countersFinal_eq (l : List Outcome) :
    ∀ c f : Nat, countersFinal c f l =
      (c + l.countP (fun o => outcomeOk o), f + l.countP (fun o => !outcomeOk o)) := by
  induction l with
  | nil => intro c f; simp [countersFinal]
  | cons o rest ih =>
      intro c f
      cases ho : outcomeOk o <;>
        simp [countersFinal, ho, ih, List.countP_cons] <;> omega

theorem enumFrom_length {α : Type} (l : List α) : ∀ k, (enumFrom k l).length = l.length := by
  induction l with
  | nil => intro k; simp [enumFrom]
  | cons a rest ih => intro k; simp [enumFrom, ih]

theorem enumFrom_get? {α : Type} (l : List α) :
    ∀ k i, (enumFrom k l).get? i = (l.get? i).map (fun a => (k + i, a)) := by
  induction l with
  | nil => intro k i; simp [enumFrom]
  | cons a rest ih =>
      intro k i
      cases i with
      | zero => simp [enumFrom]
      | succ j =>
          simp only [enumFrom, List.get?_cons_succ, ih (k + 1) j]
          cases rest.get? j
          · simp
          · simp
            omega

theorem runSchedule_perm (batch_id : String) {s₁ s₂ : List (Nat × (UFile × Outcome))}
    (h : s₁.Perm s₂) : (runSchedule batch_id s₁).Perm (runSchedule batch_id s₂) :=
  h.map _

theorem runSchedule_map_fst (batch_id : String) (s : List (Nat × (UFile × Outcome))) :
    (runSchedule batch_id s).map Prod.fst = s.map Prod.fst := by
  induction s with
  | nil => simp [runSchedule]
  | cons p rest _ih => simp [runSchedule]

theorem enumFrom_fst_ge {α : Type} (l : List α) :
    ∀ k x, x ∈ (enumFrom k l).map Prod.fst → k ≤ x := by
  induction l with
  | nil => intro k x hx; simp [enumFrom] at hx
  | cons a rest ih =>
      intro k x hx
      simp only [enumFrom, List.map_cons, List.mem_cons] at hx
      rcases hx with hx | hx
      · omega
      · have := ih (k + 1) x hx
        omega

theorem enumFrom_keys_nodup {α : Type} (l : List α) :
    ∀ k, ((enumFrom k l).map Prod.fst).Nodup := by
  induction l with
  | nil => intro k; simp [enumFrom]
  | cons a rest ih =>
      intro k
      simp only [enumFrom, List.map_cons, List.nodup_cons]
      exact ⟨fun hmem => by have := enumFrom_fst_ge rest (k + 1) k hmem; omega, ih (k + 1)⟩

theorem lookupK_runSchedule_enumFrom (batch_id : String) (l : List (UFile × Outcome)) :
    ∀ k i (hi : i < l.length),
      lookupK (runSchedule batch_id (enumFrom k l)) (k + i)
        = some (processOne batch_id (k + i) (l.get ⟨i, hi⟩).1 (l.get ⟨i, hi⟩).2) := by
  induction l with
  | nil => intro k i hi; simp at hi
  | cons p rest ih =>
      intro k i hi
      cases i with
      | zero => simp [enumFrom, runSchedule, lookupK]
      | succ j =>
          have hj : j < rest.length := by simpa using hi
          have step := ih (k + 1) j hj
          have harith : k + 1 + j = k + (j + 1) := by omega
          rw [harith] at step
          have hne : ¬(k = k + (j + 1)) := by omega
          rw [show enumFrom k (p :: rest) = (k, p) :: enumFrom (k + 1) rest from rfl,
            show runSchedule batch_id ((k, p) :: enumFrom (k + 1) rest)
              = (k, processOne batch_id k p.1 p.2)
                :: runSchedule batch_id (enumFrom (k + 1) rest) from rfl]
          simp only [lookupK]
          rw [if_neg hne]
          exact step

theorem filter_isEmpty_eq_not_any {α : Type} (p : α → Bool) (l : List α) :
    (l.filter p).isEmpty = !l.any p := by
  induction l with
  | nil => simp
  | cons a rest ih =>
      cases hp : p a <;> simp [List.filter_cons, hp, ih]

theorem process_batch_eq (batch_id : String) (files : List (UFile × Outcome))
    (zipUploadUrl : String) (st : BatchState) (info : BatchInfo)
    (h : lookupK st batch_id = some info) :
    process_batch batch_id files zipUploadUrl st
      = (Except.ok (batchResponse batch_id files zipUploadUrl),
         setK (setK st batch_id { info with status := "processing" }) batch_id
           { info with
             status := "completed"
             results := processedResults batch_id files
             completed := completedCount files
             failed := failedCount files }) := by
  have hstart : processBatchStart batch_id st
      = Except.ok (setK st batch_id { info with status := "processing" }) := by
    simp [processBatchStart, h]
  simp only [process_batch, hstart, lookupK_setK_self]

/-! ## Claim C1 -/

/-- Claim C1, counterexample: terminal task states are NOT sinks. Task
`"t1"` is cancelled (a terminal status) in `exTrB`; the subsequent
`complete_task` call in `exTrC` moves its status to `completed`, because
`complete_task` (and likewise `fail_task`) has no terminal-state guard. -/
theorem terminal_state_not_sink_cex :
    (lookupK exTrB "t1").map Task.status = some TaskStatus.cancelled ∧
    (lookupK exTrC "t1").map Task.status = some TaskStatus.completed :=
  ⟨by decide, by decide⟩

/-- Claim C1, amended: terminal task statuses (completed, failed,
cancelled) are sinks for `update_progress` and `cancel_task`:
`update_progress` returns false and leaves the tracker unchanged, and
`cancel_task` never changes a terminal task's status to a different value.
`complete_task` and `fail_task`, however, perform no terminal-state check
and overwrite the status of any existing task with `completed`
resp. `failed`. -/
theorem terminal_sink_update_cancel (ts : TrackerState) (task_id : String) (now : Nat)
    (current_step : Int) (message : Option String) (md : List (String × String))
    (u : Option String) (emsg : String) (t : Task) (h : lookupK ts task_id = some t)
    (hterm : t.status = TaskStatus.completed ∨ t.status = TaskStatus.failed ∨
      t.status = TaskStatus.cancelled) :
    update_progress now task_id current_step message md ts = (ts, false) ∧
    (lookupK (cancel_task now task_id ts).1 task_id).map Task.status = some t.status ∧
    (lookupK (complete_task now task_id u md ts).1 task_id).map Task.status
      = some TaskStatus.completed ∧
    (lookupK (fail_task now task_id emsg md ts).1 task_id).map Task.status
      = some TaskStatus.failed := by
  refine ⟨?_, ?_, ?_, ?_⟩
  · simp only [update_progress, h]
    rw [if_pos hterm]
  · rcases hterm with h1 | h1 | h1
    · simp [cancel_task, h, h1]
    · simp [cancel_task, h, h1]
    · simp [cancel_task, h, h1, lookupK_setK_self]
  · rcases u with _ | u'
    · by_cases hm : md.isEmpty <;> simp [complete_task, h, hm, lookupK_setK_self]
    · by_cases hu : u' = "" <;> by_cases hm : md.isEmpty <;>
        simp [complete_task, h, hu, hm, lookupK_setK_self]
  · by_cases hm : md.isEmpty <;> simp [fail_task, h, hm, lookupK_setK_self]

/-- Claim C1, witness for the amended theorem: instantiated on the
cancelled task `"t1"` of `exTrB`. -/
theorem terminal_sink_update_cancel_witness :
    update_progress 9 "t1" 7 none [] exTrB = (exTrB, false) ∧
    (lookupK (cancel_task 9 "t1" exTrB).1 "t1").map Task.status
      = some exTaskCancelled.status ∧
    (lookupK (complete_task 9 "t1" none [] exTrB).1 "t1").map Task.status
      = some TaskStatus.completed ∧
    (lookupK (fail_task 9 "t1" "err" [] exTrB).1 "t1").map Task.status
      = some TaskStatus.failed :=
  terminal_sink_update_cancel exTrB "t1" 9 7 none [] none "err" exTaskCancelled
    (by decide) (by decide)

/-! ## Claim C5 -/

/-- Claim C5, counterexample: `update_progress` does NOT clamp
`current_step` to the interval `[0, total_steps]`. On the queued task
`"t5"` with `total_steps = 100`, updating with `current_step = -50` stores
`current_step = -50` and `progress = -50`: there is no lower clamp at 0
(the code only takes `min(current_step, total_steps)`). -/
theorem update_progress_no_lower_clamp_cex :
    (lookupK (update_progress 1 "t5" (-50) none [] exTrE).1 "t5").map Task.current_step
      = some (-50) ∧
    (lookupK (update_progress 1 "t5" (-50) none [] exTrE).1 "t5").map Task.progress
      = some (-50) :=
  ⟨by decide, by decide⟩

/-- Claim C5, amended: for an existing non-terminal task,
`update_progress` returns true, clamps `current_step` from above only
(stored value is `min(current_step, total_steps)`; negative inputs are
stored as given), and sets `progress` to the truncated percentage
`(stored_step * 100) tdiv total_steps`; in particular with
`total_steps = 100` and `current_step = 150` it stores 100 and 100 (see
the witness). -/
theorem update_progress_clamp (ts : TrackerState) (task_id : String) (now : Nat)
    (current_step : Int) (message : Option String) (md : List (String × String)) (t : Task)
    (h : lookupK ts task_id = some t)
    (hnt : ¬(t.status = TaskStatus.completed ∨ t.status = TaskStatus.failed ∨
      t.status = TaskStatus.cancelled))
    (_hpos : 0 < t.total_steps) :
    (update_progress now task_id current_step message md ts).2 = true ∧
    (lookupK (update_progress now task_id current_step message md ts).1 task_id).map
        Task.current_step = some (min current_step t.total_steps) ∧
    (lookupK (update_progress now task_id current_step message md ts).1 task_id).map
        Task.progress
      = some (Int.tdiv (min current_step t.total_steps * 100) t.total_steps) := by
  rcases message with _ | m
  · by_cases hq : t.status = TaskStatus.queued <;> by_cases hm : md.isEmpty <;>
      simp [update_progress, h, hnt, hq, hm, lookupK_setK_self]
  · by_cases hq : t.status = TaskStatus.queued <;> by_cases hm : md.isEmpty <;>
      by_cases hms : m = "" <;>
        simp [update_progress, h, hnt, hq, hm, hms, lookupK_setK_self]

/-- Claim C5, witness: the spec scenario. Task `"t5"` has
`total_steps = 100`; updating with `current_step = 150` stores
`current_step = 100` and `progress = 100`. -/
theorem update_progress_clamp_witness :
    (update_progress 1 "t5" 150 none [] exTrE).2 = true ∧
    (lookupK (update_progress 1 "t5" 150 none [] exTrE).1 "t5").map Task.current_step
      = some 100 ∧
    (lookupK (update_progress 1 "t5" 150 none [] exTrE).1 "t5").map Task.progress
      = some 100 := by
  have h := update_progress_clamp exTrE "t5" 1 150 none [] exTaskQueued
    (by decide) (by decide) (by decide)
  refine ⟨h.1, ?_, ?_⟩
  · rw [h.2.1]; decide
  · rw [h.2.2]; decide

/-! ## Claim C8 -/

/-- Claim C8: `cancel_task` sets a task's status to cancelled exactly when
the task exists and its status is neither completed nor failed, returning
true in that case; it returns false, leaving the tracker unchanged, when
the task is already completed or failed, or when the task_id is unknown. -/
theorem cancel_task_terminal_guard (ts : TrackerState) (task_id : String) (now : Nat) :
    (∀ t : Task, lookupK ts task_id = some t →
        t.status ≠ TaskStatus.completed → t.status ≠ TaskStatus.failed →
        (cancel_task now task_id ts).2 = true ∧
        (lookupK (cancel_task now task_id ts).1 task_id).map Task.status
          = some TaskStatus.cancelled) ∧
    (∀ t : Task, lookupK ts task_id = some t →
        (t.status = TaskStatus.completed ∨ t.status = TaskStatus.failed) →
        cancel_task now task_id ts = (ts, false)) ∧
    (lookupK ts task_id = none → cancel_task now task_id ts = (ts, false)) := by
  refine ⟨?_, ?_, ?_⟩
  · intro t h h1 h2
    have hcond : ¬(t.status = TaskStatus.completed ∨ t.status = TaskStatus.failed) := by
      tauto
    simp [cancel_task, h, hcond, lookupK_setK_self]
  · intro t h hor
    simp [cancel_task, h, hor]
  · intro h
    simp [cancel_task, h]

/-- Claim C8, witness: cancelling the processing task `"t8"` succeeds and
marks it cancelled; cancelling it again after completion returns false and
changes nothing; cancelling an unknown id returns false. -/
theorem cancel_task_terminal_guard_witness :
    ((cancel_task 5 "t8" exTrP).2 = true ∧
      (lookupK (cancel_task 5 "t8" exTrP).1 "t8").map Task.status
        = some TaskStatus.cancelled) ∧
    cancel_task 5 "t8" exTrPDone = (exTrPDone, false) ∧
    cancel_task 5 "zz" [] = ([], false) :=
  ⟨(cancel_task_terminal_guard exTrP "t8" 5).1 exTaskProcessing
      (by decide) (by decide) (by decide),
    (cancel_task_terminal_guard exTrPDone "t8" 5).2.1 exTaskDone (by decide) (by decide),
    (cancel_task_terminal_guard [] "zz" 5).2.2 (by decide)⟩

/-! ## Claim C9 -/

/-- Claim C9: `update_progress` on a task_id not present in the registry
returns false and leaves the tracker state completely unchanged (no task
created, no existing task modified). -/
theorem update_progress_unknown_id (now : Nat) (task_id : String) (current_step : Int)
    (message : Option String) (metadata : List (String × String)) (ts : TrackerState)
    (h : lookupK ts task_id = none) :
    update_progress now task_id current_step message metadata ts = (ts, false) := by
  simp [update_progress, h]

/-- Claim C9, witness: an unknown id on the one-task tracker `exTrE`. -/
theorem update_progress_unknown_id_witness :
    update_progress 3 "nosuch" 5 none [] exTrE = (exTrE, false) :=
  update_progress_unknown_id 3 "nosuch" 5 none [] exTrE (by decide)

/-! ## Claim C10 -/

/-- Claim C10: `create_task` on a task_id that already exists silently
overwrites the existing record with a fresh one (status queued, progress
0, current_step 0, created_at/updated_at set to now) and returns the fresh
record. -/
theorem create_task_overwrites (now : Nat) (task_id task_type fname : String)
    (total_steps : Int) (metadata : List (String × String)) (ts : TrackerState)
    (old : Task) (_h : lookupK ts task_id = some old) :
    lookupK (create_task now task_id task_type fname total_steps metadata ts).1 task_id
      = some (create_task now task_id task_type fname total_steps metadata ts).2 ∧
    (create_task now task_id task_type fname total_steps metadata ts).2.status
      = TaskStatus.queued ∧
    (create_task now task_id task_type fname total_steps metadata ts).2.progress = 0 ∧
    (create_task now task_id task_type fname total_steps metadata ts).2.current_step = 0 ∧
    (create_task now task_id task_type fname total_steps metadata ts).2.created_at = now ∧
    (create_task now task_id task_type fname total_steps metadata ts).2.updated_at = now ∧
    (create_task now task_id task_type fname total_steps metadata ts).2.total_steps
      = total_steps := by
  refine ⟨?_, rfl, rfl, rfl, rfl, rfl, rfl⟩
  simp [create_task, lookupK_setK_self]

/-- Claim C10, witness: re-creating `"t1"` (which exists in `exTrA` with
an old record) yields a fresh queued record. -/
theorem create_task_overwrites_witness :
    lookupK (create_task 7 "t1" "other" "z.png" 50 [] exTrA).1 "t1"
      = some (create_task 7 "t1" "other" "z.png" 50 [] exTrA).2 ∧
    (create_task 7 "t1" "other" "z.png" 50 [] exTrA).2.status = TaskStatus.queued ∧
    (create_task 7 "t1" "other" "z.png" 50 [] exTrA).2.progress = 0 ∧
    (create_task 7 "t1" "other" "z.png" 50 [] exTrA).2.current_step = 0 ∧
    (create_task 7 "t1" "other" "z.png" 50 [] exTrA).2.created_at = 7 ∧
    (create_task 7 "t1" "other" "z.png" 50 [] exTrA).2.updated_at = 7 ∧
    (create_task 7 "t1" "other" "z.png" 50 [] exTrA).2.total_steps = 50 :=
  create_task_overwrites 7 "t1" "other" "z.png" 50 [] exTrA
    (create_task 0 "t1" "conversion" "a.pdf" 100 [] []).2 (by decide)

/-! ## Claim C2 -/

/-- Claim C2: when `process_batch` returns its result for an existing
batch, `completed + failed = total_files` (with `total_files` the number
of processed files) and the batch record's status is "completed";
moreover, under every completion order (any permutation of the outcomes)
every intermediate value of the `(completed, failed)` counters satisfies
`completed + failed ≤ total_files`, and the final counter values are the
returned ones. -/
theorem process_batch_counts (batch_id : String) (files : List (UFile × Outcome))
    (zipUploadUrl : String) (st : BatchState) (info : BatchInfo)
    (h : lookupK st batch_id = some info) :
    ∃ resp st',
      process_batch batch_id files zipUploadUrl st = (Except.ok resp, st') ∧
      resp.completed + resp.failed = resp.total_files ∧
      resp.total_files = files.length ∧
      (lookupK st' batch_id).map BatchInfo.status = some "completed" ∧
      ∀ sched : List Outcome, sched.Perm (files.map Prod.snd) →
        (∀ p ∈ countersTrace 0 0 sched, p.1 + p.2 ≤ files.length) ∧
        countersFinal 0 0 sched = (resp.completed, resp.failed) := by
  refine ⟨batchResponse batch_id files zipUploadUrl, _,
    process_batch_eq batch_id files zipUploadUrl st info h, ?_, rfl, ?_, ?_⟩
  · simpa [batchResponse, completedCount, failedCount]
      using countP_ok_add_countP_not (files.map Prod.snd)
  · rw [lookupK_setK_self]
    rfl
  · intro sched hperm
    have hlen : sched.length = files.length := by
      simpa using hperm.length_eq
    constructor
    · intro p hp
      have hb := countersTrace_sum_le sched 0 0 p hp
      omega
    · rw [countersFinal_eq]
      rw [hperm.countP_eq (fun o => outcomeOk o), hperm.countP_eq (fun o => !outcomeOk o)]
      simp [batchResponse, completedCount, failedCount]

/-- Claim C2, witness: the two-file batch `"b1"` with one success and one
raised exception. -/
theorem process_batch_counts_witness :
    ∃ resp st',
      process_batch "b1" exOutcomes "https://s/zip1" exBatchSt = (Except.ok resp, st') ∧
      resp.completed + resp.failed = resp.total_files ∧
      resp.total_files = exOutcomes.length ∧
      (lookupK st' "b1").map BatchInfo.status = some "completed" ∧
      ∀ sched : List Outcome, sched.Perm (exOutcomes.map Prod.snd) →
        (∀ p ∈ countersTrace 0 0 sched, p.1 + p.2 ≤ exOutcomes.length) ∧
        countersFinal 0 0 sched = (resp.completed, resp.failed) :=
  process_batch_counts "b1" exOutcomes "https://s/zip1" exBatchSt exBatchInfo (by decide)

/-! ## Claim C3 -/

/-- Claim C3: for an existing batch, `process_batch` returns exactly one
result per file, index-aligned with the input order: `results[i]` is the
outcome of converting `files[i]` (the processor's response, or the
synthesized error response carrying `files[i]`'s filename). The alignment
is independent of the order in which the concurrent units finish: under
any completion schedule (any permutation of the enumerated files), the
response produced for slot `i` is that same result. -/
theorem process_batch_results_aligned (batch_id : String) (files : List (UFile × Outcome))
    (zipUploadUrl : String) (st : BatchState) (info : BatchInfo)
    (h : lookupK st batch_id = some info) :
    ∃ resp st',
      process_batch batch_id files zipUploadUrl st = (Except.ok resp, st') ∧
      resp.results.length = files.length ∧
      (∀ i (hi : i < files.length),
        resp.results.get? i
          = some (processOne batch_id i (files.get ⟨i, hi⟩).1 (files.get ⟨i, hi⟩).2)) ∧
      (∀ sched : List (Nat × (UFile × Outcome)), sched.Perm (enumFrom 0 files) →
        ∀ i (hi : i < files.length),
          lookupK (runSchedule batch_id sched) i
            = some (processOne batch_id i (files.get ⟨i, hi⟩).1 (files.get ⟨i, hi⟩).2)) := by
  refine ⟨batchResponse batch_id files zipUploadUrl, _,
    process_batch_eq batch_id files zipUploadUrl st info h, ?_, ?_, ?_⟩
  · simp [batchResponse, processedResults, enumFrom_length]
  · intro i hi
    have hcanon := enumFrom_get? files 0 i
    rw [List.get?_eq_get hi] at hcanon
    simp only [batchResponse, processedResults, List.get?_map, hcanon, Option.map_some']
    simp
  · intro sched hperm i hi
    have hndsched : ((runSchedule batch_id sched).map Prod.fst).Nodup := by
      rw [runSchedule_map_fst]
      exact ((hperm.map Prod.fst).nodup_iff).mpr (enumFrom_keys_nodup files 0)
    rw [lookupK_perm (runSchedule_perm batch_id hperm) hndsched i]
    have := lookupK_runSchedule_enumFrom batch_id files 0 i hi
    simpa using this

/-- Claim C3, witness: the two-file batch `"b1"`. -/
theorem process_batch_results_aligned_witness :
    ∃ resp st',
      process_batch "b1" exOutcomes "https://s/zip1" exBatchSt = (Except.ok resp, st') ∧
      resp.results.length = exOutcomes.length ∧
      (∀ i (hi : i < exOutcomes.length),
        resp.results.get? i
          = some (processOne "b1" i (exOutcomes.get ⟨i, hi⟩).1 (exOutcomes.get ⟨i, hi⟩).2)) ∧
      (∀ sched : List (Nat × (UFile × Outcome)), sched.Perm (enumFrom 0 exOutcomes) →
        ∀ i (hi : i < exOutcomes.length),
          lookupK (runSchedule "b1" sched) i
            = some (processOne "b1" i (exOutcomes.get ⟨i, hi⟩).1 (exOutcomes.get ⟨i, hi⟩).2)) :=
  process_batch_results_aligned "b1" exOutcomes "https://s/zip1" exBatchSt exBatchInfo
    (by decide)

/-! ## Claim C4 -/

/-- Claim C4, counterexample: batch status is NOT monotonic. Batch `"b1"`
has status "completed" in `exBatchDone`; a further `process_batch` call on
the same batch_id starts by setting its status back to "processing"
(`processBatchStart` is exactly that first phase, and the "processing"
status is observable through `get_batch_status` while the second call's
units run). -/
theorem batch_completed_reset_to_processing_cex :
    (lookupK exBatchDone "b1").map BatchInfo.status = some "completed" ∧
    processBatchStart "b1" exBatchDone = Except.ok exBatchRestarted ∧
    (lookupK exBatchRestarted "b1").map BatchInfo.status = some "processing" :=
  ⟨by decide, by rfl, by decide⟩

/-- Claim C4, amended: once a batch is completed its status can change
only through a further `process_batch` call on the same batch_id, which
sets it back to "processing" for the duration of the call and to
"completed" again at return: every `process_batch` call on an existing
batch leaves the record's status "completed", and
`cleanup_old_batches` either deletes the record outright or leaves it
untouched. -/
theorem batch_completed_reestablished (batch_id : String) (files : List (UFile × Outcome))
    (zipUploadUrl : String) (st : BatchState) (info : BatchInfo) (now hours : Nat)
    (h : lookupK st batch_id = some info)
    (hnd : (st.map Prod.fst).Nodup) :
    (lookupK (process_batch batch_id files zipUploadUrl st).2 batch_id).map
        BatchInfo.status = some "completed" ∧
    (lookupK (cleanup_old_batches now hours st).1 batch_id = none ∨
      lookupK (cleanup_old_batches now hours st).1 batch_id = some info) := by
  constructor
  · rw [process_batch_eq batch_id files zipUploadUrl st info h]
    rw [lookupK_setK_self]
    rfl
  · rcases lookupK_filter
        (fun p => !decide ((p.2.created_at : Int) < (now : Int) - (hours : Int) * 3600))
        st batch_id hnd with hc | hc
    · left
      simpa [cleanup_old_batches] using hc
    · right
      rw [h] at hc
      simpa [cleanup_old_batches] using hc

/-- Claim C4, witness for the amended theorem: instantiated on the
completed batch `"b1"` of `exBatchDone`. -/
theorem batch_completed_reestablished_witness :
    (lookupK (process_batch "b1" exOutcomes "https://s/zip2" exBatchDone).2 "b1").map
        BatchInfo.status = some "completed" ∧
    (lookupK (cleanup_old_batches 7 24 exBatchDone).1 "b1" = none ∨
      lookupK (cleanup_old_batches 7 24 exBatchDone).1 "b1"
        = some ((lookupK exBatchDone "b1").getD default)) :=
  batch_completed_reestablished "b1" exOutcomes "https://s/zip2" exBatchDone
    ((lookupK exBatchDone "b1").getD default) 7 24 (by decide) (by decide)

/-! ## Claim C6 -/

/-- Claim C6, counterexample: `zip_url` is NOT present whenever at least
one file's conversion succeeded. The single file of batch `"b6"` converts
successfully (`results[0].status = success`, `completed = 1`) but its
response carries `result_url = None` — which the PDF router really
produces for multi-output conversions (backend/routers/pdf.py line 91) —
so the archive filter `status == SUCCESS and r.result_url` excludes it and
`zip_url` is `None`. -/
theorem zip_url_despite_success_cex :
    ∃ resp, process_batch "b6" exOutcomesC6 "https://s/zip6" exBatchStC6
        = (Except.ok resp, exBatchStC6Done) ∧
      resp.completed = 1 ∧
      resp.results.get? 0 = some exRespOkNoUrl ∧
      exRespOkNoUrl.status = ConversionStatus.success ∧
      resp.zip_url = none :=
  ⟨exRespC6, by rfl, by decide, by decide, by decide, by decide⟩

/-- Claim C6, amended: `process_batch` returns `zip_url` present if and
only if at least one result is archivable, i.e. has status success AND a
truthy (non-None, non-empty) `result_url`; when no result passes that
filter — in particular when zero files succeed — `zip_url` is `None` and
no archive is built. -/
theorem zip_url_iff_archivable_result (batch_id : String) (files : List (UFile × Outcome))
    (zipUploadUrl : String) (st : BatchState) (info : BatchInfo)
    (h : lookupK st batch_id = some info) :
    ∃ resp st',
      process_batch batch_id files zipUploadUrl st = (Except.ok resp, st') ∧
      resp.zip_url.isSome = resp.results.any archivable := by
  refine ⟨batchResponse batch_id files zipUploadUrl, _,
    process_batch_eq batch_id files zipUploadUrl st info h, ?_⟩
  have harch := filter_isEmpty_eq_not_any archivable (processedResults batch_id files)
  by_cases he : ((processedResults batch_id files).filter archivable).isEmpty
  · rw [he] at harch
    have hany : (processedResults batch_id files).any archivable = false := by
      cases hx : (processedResults batch_id files).any archivable
      · rfl
      · rw [hx] at harch; exact absurd harch.symm (by simp)
    simp [batchResponse, he, hany]
  · rw [Bool.not_eq_true] at he
    rw [he] at harch
    have hany : (processedResults batch_id files).any archivable = true := by
      cases hx : (processedResults batch_id files).any archivable
      · rw [hx] at harch; exact absurd harch.symm (by simp)
      · rfl
    simp [batchResponse, he, hany]

/-- Claim C6, witness for the amended theorem: the `"b6"` run, where the
only result has status success but no result URL, so both sides are
false. -/
theorem zip_url_iff_archivable_result_witness :
    ∃ resp st',
      process_batch "b6" exOutcomesC6 "https://s/zip6" exBatchStC6
        = (Except.ok resp, st') ∧
      resp.zip_url.isSome = resp.results.any archivable :=
  zip_url_iff_archivable_result "b6" exOutcomesC6 "https://s/zip6" exBatchStC6
    exBatchInfoC6 (by decide)

/-! ## Claim C7 -/

/-- Claim C7: `create_batch` rejects with a validation error any
submission with more than 50 files or with total byte size exceeding
500 MiB, and in that case the registry is unchanged and no batch_id is
returned. -/
theorem create_batch_rejects (now : Nat) (batch_id : String) (files : List UFile)
    (operation : String) (options : List (String × String)) (st : BatchState)
    (h : files.length > 50 ∨ (files.map fileSize).sum > 500 * 1024 * 1024) :
    (∃ e, (create_batch now batch_id files operation options st).1 = Except.error e) ∧
    (create_batch now batch_id files operation options st).2 = st := by
  by_cases h50 : files.length > 50
  · constructor
    · exact ⟨"Maximum 50 files allowed per batch", by simp [create_batch, h50]⟩
    · simp [create_batch, h50]
  · have hsize : (files.map fileSize).sum > 500 * 1024 * 1024 := h.resolve_left h50
    constructor
    · exact ⟨"Total batch size exceeds 500MB limit", by simp [create_batch, h50, hsize]⟩
    · simp [create_batch, h50, hsize]

/-- Claim C7, witness: a 51-file submission on the empty registry is
rejected and the registry stays empty. -/
theorem create_batch_rejects_witness :
    (∃ e, (create_batch 0 "bid51" exFiles51 "convert" [] []).1 = Except.error e) ∧
    (create_batch 0 "bid51" exFiles51 "convert" [] []).2 = [] :=
  create_batch_rejects 0 "bid51" exFiles51 "convert" [] [] (Or.inl (by decide))

end ConvertAllHub
